import Mathlib

/-!
Verification development for the Gaminute portfolio repository (jsilbersky/web).

The repository contains several rewritten revisions of the same site:
two server revisions inside server.js (a SQLite-backed one and a later
GamesService/EmailService one), a static no-database server (part_001, and a
close variant concatenated at the end of main.js), and two client revisions in
main.js.  The embeddings below follow the JavaScript sources line by line:
JS string truthiness becomes an explicit helper, the numeric or-default idiom
(x or-bars d, where 0 and undefined are falsy) becomes jsOr, and
Array.prototype.sort with a consistent comparator c is modelled as the stable
sort by the relation (c a b is at most 0), which is exactly what ECMAScript
guarantees for a consistent comparator.
-/

namespace Gaminute

/-- A portfolio Game record.  Fields follow the hardcoded arrays in the
sources; created_at (a runtime timestamp, unused by any embedded logic) is
omitted, and priority is optional because only the later server revision
carries it. -/
structure Game where
  id : Int
  title : String
  description : String
  genre : String
  tech : String
  version : String
  status : String
  priority : Option Int := none
  url : String := ""
  thumb : String := ""
  deriving DecidableEq

/-- Truthiness of a JS string: the empty string is falsy. -/
def truthyS (s : String) : Bool := !(s == "")

/-- Truthiness of an optional JS string value (undefined and the empty string
are falsy). -/
def truthyO : Option String → Bool
  | none => false
  | some s => truthyS s

/-- The string carried by an optional query or body field (undefined reads as
the empty string). -/
def strOf (o : Option String) : String := o.getD ("")

/-- The JS expression x or-bars d on an optional numeric field: undefined and
0 are both falsy, so both fall back to the default d. -/
def jsOr : Option Int → Int → Int
  | some n, d => if n = 0 then d else n
  | none, d => d

/-- JS String.prototype.toLowerCase, modelled character-wise over the
underlying list (the statuses and search terms involved are ASCII, where
Char.toLower agrees with JS). -/
def strToLower (s : String) : String := ⟨s.data.map Char.toLower⟩

/-- JS String.prototype.trim: strip whitespace from both ends. -/
def strTrim (s : String) : String :=
  ⟨((s.data.dropWhile Char.isWhitespace).reverse.dropWhile Char.isWhitespace).reverse⟩

/-- Code-point order on character lists, the model of localeCompare. -/
def charListLt : List Char → List Char → Bool
  | [], [] => false
  | [], _ :: _ => true
  | _ :: _, [] => false
  | x :: xs, y :: ys => x < y || (x = y && charListLt xs ys)

/-- Rank table of GamesService.sortGames and Games.sortGames: keys live and
in dev, looked up on the lowercased, trimmed status. -/
def statusOrderGS (s : String) : Option Int :=
  if s = "live" then some 0 else if s = "in dev" then some 1 else none

/-- Rank table of the part_001 default sort: Live 0, In Dev 1, Prototype 2,
Concept 3. -/
def statusOrderP1 (s : String) : Option Int :=
  if s = "Live" then some 0
  else if s = "In Dev" then some 1
  else if s = "Prototype" then some 2
  else if s = "Concept" then some 3
  else none

/-- Rank table of the first client revision applyFilters sort and of the
server revision concatenated at the end of main.js: Live 0, In Dev 1,
Concept 2. -/
def statusOrderClient (s : String) : Option Int :=
  if s = "Live" then some 0
  else if s = "In Dev" then some 1
  else if s = "Concept" then some 2
  else none

/-- Comparator of GamesService.sortGames (server.js) and Games.sortGames
(main.js): lowercase and trim the status, look it up with an undefined check
falling back to 99, and tie-break by priority or-bars 999. -/
def cmpGS (a b : Game) : Int :=
  let valA := (statusOrderGS (strTrim (strToLower a.status))).getD 99
  let valB := (statusOrderGS (strTrim (strToLower b.status))).getD 99
  let statusDiff := valA - valB
  if statusDiff ≠ 0 then statusDiff else jsOr a.priority 999 - jsOr b.priority 999

/-- Default comparator of the part_001 GET /api/games route: the rank lookup
uses the JS or-bars idiom, so the rank 0 of Live is falsy and falls back
to 99; there is no secondary key. -/
def cmpP1Default (a b : Game) : Int :=
  jsOr (statusOrderP1 a.status) 99 - jsOr (statusOrderP1 b.status) 99

/-- Default comparator of the server revision at the end of main.js: rank via
the same or-bars idiom (so Live again ranks 99), then descending id. -/
def cmpMainDefault (a b : Game) : Int :=
  let statusDiff :=
    jsOr (statusOrderClient a.status) 99 - jsOr (statusOrderClient b.status) 99
  if statusDiff ≠ 0 then statusDiff else b.id - a.id

/-- Comparator of the first client revision applyFilters sort: the game
titled Loading Rush is forced first, then rank via the or-bars idiom, then
priority or-bars 999. -/
def cmpApply (a b : Game) : Int :=
  if a.title = "Loading Rush" then -1
  else if b.title = "Loading Rush" then 1
  else
    let statusDiff :=
      jsOr (statusOrderClient a.status) 99 - jsOr (statusOrderClient b.status) 99
    if statusDiff ≠ 0 then statusDiff else jsOr a.priority 999 - jsOr b.priority 999

/-- Comparator of the sort equal oldest branch: ascending id. -/
def cmpOldest (a b : Game) : Int := a.id - b.id

/-- Comparator of the sort equal alpha branch; localeCompare is modelled as
code-point order on the titles. -/
def cmpAlpha (a b : Game) : Int :=
  if charListLt a.title.data b.title.data then -1
  else if a.title = b.title then 0 else 1

/-- Array.prototype.sort with a consistent comparator c: ECMAScript mandates
a stable result sorted by the preorder given by c being nonpositive, which the
stable insertionSort by that relation produces uniquely. -/
def jsSort (c : Game → Game → Int) (l : List Game) : List Game :=
  l.insertionSort (fun a b => c a b ≤ 0)

/-- GamesService.sortGames: stable sort of the array by cmpGS.  Games.sortGames
on the client is the same logic (its null guard on status reads as the empty
string, which the total String status field already covers). -/
def sortGames (l : List Game) : List Game := jsSort cmpGS l

/-- The PORTFOLIO_GAMES array of the part_001 static server: four games with
statuses Live, In Dev, Prototype, Concept and no priority field. -/
def P1_GAMES : List Game := [
  { id := 1, title := "Loading Rush",
    description := "Hyper-casual reflex test. Tap with millisecond precision to stop the loading bar at the perfect moment. Features anti-cheat logic, global leaderboards, and haptic feedback that responds to your accuracy.",
    genre := "arcade", tech := "canvas", version := "1.0.2", status := "Live",
    url := "https://play.google.com/store/apps/details?id=com.jsilb.loadingrush",
    thumb := "img/loadingwebimg.webp" },
  { id := 2, title := "TicTacToe Lava",
    description := "Classic logic game with a chaotic twist. The board melts beneath you as tiles fall due to gravity, and you must survive the rising lava. Includes Daily Challenges, power-ups, and progressive difficulty modes.",
    genre := "puzzle", tech := "dom", version := "1.4.5", status := "In Dev",
    url := "", thumb := "img/lavawebimg.webp" },
  { id := 3, title := "Neon Coil",
    description := "Modern survival arcade with 360-degree movement mechanics. Navigate through dynamic obstacles with glowing trail effects and starfield parallax backgrounds. Built with custom 2D rendering engine for maximum performance.",
    genre := "arcade", tech := "canvas", version := "0.9.0", status := "Prototype",
    url := "", thumb := "img/backgroundhero.webp" },
  { id := 4, title := "Galaxiko Joystick",
    description := "High-speed 3D tunnel runner using math-based perspective projection. Test your reflexes in a neon void as the tunnel twists and accelerates. Features procedural generation and dynamic difficulty adjustment.",
    genre := "arcade", tech := "canvas", version := "0.5.0", status := "Concept",
    url := "", thumb := "img/galaxikowebimg.webp" }]

/-- The seed rows of the SQLite revision coincide field by field with the
part_001 array (the ids 1 to 4 come from the AUTOINCREMENT primary key). -/
def SEED_GAMES : List Game := P1_GAMES

/-- The PORTFOLIO_GAMES array of the later server revision in server.js: five
games carrying priorities, stored in the order of ids 1, 2, 4, 5, 3. -/
def V2_GAMES : List Game := [
  { id := 1, title := "Loading Rush",
    description := "Hyper-casual reflex test. Turn the most boring part of gaming into a neon timing challenge. A simple one-tap game where you finally get to control the progress bar.",
    genre := "arcade", tech := "canvas", version := "1.0.2", status := "Live",
    priority := some 1,
    url := "https://play.google.com/store/apps/details?id=com.jsilb.loadingrush",
    thumb := "img/loadingwebimg.webp" },
  { id := 2, title := "Tic Tac Toe Lava",
    description := "Classic logic game with a chaotic twist. The board melts beneath you as tiles fall due to gravity, and you must survive the rising lava. Includes Daily Challenges, power-ups, and progressive difficulty modes.",
    genre := "puzzle", tech := "dom", version := "1.4.5", status := "Live",
    priority := some 2,
    url := "https://play.google.com/store/apps/details?id=com.gaminute.tictactoelava",
    thumb := "img/lavawebimg.webp" },
  { id := 4, title := "Galaxiko Joystick",
    description := "Survival is simple: Match the color or crash. Pilot your ship through a neon tunnel that gets faster every second. Panic is your enemy, speed is your friend.",
    genre := "arcade", tech := "canvas", version := "0.5.0", status := "Live",
    priority := some 3,
    url := "https://play.google.com/store/apps/details?id=com.gaminute.galaxikojoystick",
    thumb := "img/galaxikowebimg.webp" },
  { id := 5, title := "Shape Slash",
    description := "Swipe to connect matching shapes and clear the board in this fast-paced puzzle game. Unlock special power-ups to freeze time and create massive combos. Race against the clock to set new high scores before time runs out.",
    genre := "puzzle", tech := "canvas", version := "0.8.0", status := "Live",
    priority := some 4,
    url := "https://play.google.com/store/apps/details?id=com.jsilbersky.shape",
    thumb := "img/shapeslash.webp" },
  { id := 3, title := "Neon Glide",
    description := "A modern twist on the classic Snake mechanic. Guide the glowing coil directly with your finger, collect parts to grow, and try not to crash into your own tail.",
    genre := "arcade", tech := "canvas", version := "0.9.0", status := "In Dev",
    priority := some 5,
    url := "", thumb := "img/backgroundhero.webp" }]

/-- The PORTFOLIO_GAMES array of the static-server revision concatenated at
the end of main.js: five games, statuses Live, In Dev, Concept, In Dev,
In Dev, no priority field. -/
def MAIN3_GAMES : List Game := [
  { id := 1, title := "Loading Rush",
    description := "Hyper-casual reflex test. Tap with millisecond precision to stop the loading bar at the perfect moment. Features anti-cheat logic, global leaderboards, and haptic feedback that responds to your accuracy.",
    genre := "arcade", tech := "canvas", version := "1.0.2", status := "Live",
    url := "https://play.google.com/store/apps/details?id=com.jsilb.loadingrush",
    thumb := "img/loadingwebimg.webp" },
  { id := 2, title := "TicTacToe Lava",
    description := "Classic logic game with a chaotic twist. The board melts beneath you as tiles fall due to gravity, and you must survive the rising lava. Includes Daily Challenges, power-ups, and progressive difficulty modes.",
    genre := "puzzle", tech := "dom", version := "1.4.5", status := "In Dev",
    url := "", thumb := "img/lavawebimg.webp" },
  { id := 3, title := "Neon Coil",
    description := "Modern survival arcade with 360-degree movement mechanics. Navigate through dynamic obstacles with glowing trail effects and starfield parallax backgrounds. Built with custom 2D rendering engine for maximum performance.",
    genre := "arcade", tech := "canvas", version := "0.9.0", status := "Concept",
    url := "", thumb := "img/backgroundhero.webp" },
  { id := 4, title := "Galaxiko Joystick",
    description := "High-speed 3D tunnel runner using math-based perspective projection. Test your reflexes in a neon void as the tunnel twists and accelerates. Features procedural generation and dynamic difficulty adjustment.",
    genre := "arcade", tech := "canvas", version := "0.5.0", status := "In Dev",
    url := "", thumb := "img/galaxikowebimg.webp" },
  { id := 5, title := "Shape Slash",
    description := "Swipe to connect matching shapes and clear the board in this fast-paced puzzle game. Unlock special power-ups to freeze time and create massive combos. Race against the clock to set new high scores before time runs out.",
    genre := "puzzle", tech := "canvas", version := "0.8.0", status := "In Dev",
    url := "", thumb := "img/shapeslash.webp" }]

/-- Does the character list hay start with needle. -/
def startsWithL : List Char → List Char → Bool
  | [], _ => true
  | _ :: _, [] => false
  | x :: xs, y :: ys => x = y && startsWithL xs ys

/-- Does needle occur contiguously inside hay (the empty needle always
occurs). -/
def containsL (needle hay : List Char) : Bool :=
  match hay with
  | [] => needle.isEmpty
  | _ :: t => startsWithL needle hay || containsL needle t

/-- JS String.prototype.includes on the underlying character lists. -/
def strIncludes (s sub : String) : Bool := containsL sub.toList s.toList

/-- The search predicate every revision uses: case-insensitive substring match
of the term against title or description. -/
def searchPred (term : String) (g : Game) : Bool :=
  strIncludes (strToLower g.title) (strToLower term)
    || strIncludes (strToLower g.description) (strToLower term)

/-- The query parameters destructured by the server routes. -/
structure Filters where
  search : Option String := none
  genre : Option String := none
  status : Option String := none

/-- GamesService.getAll (server.js): spread copy, genre filter, status filter,
search filter, then sortGames.  A genre or status of undefined or the empty
string is falsy and skips its filter. -/
def getAll (games : List Game) (fs : Filters) : List Game :=
  let g1 := if truthyO fs.genre && !(strOf fs.genre == "all")
    then games.filter (fun g => g.genre == strOf fs.genre) else games
  let g2 := if truthyO fs.status && !(strOf fs.status == "all")
    then g1.filter (fun g => g.status == strOf fs.status) else g1
  let g3 := if truthyO fs.search
    then g2.filter (searchPred (strOf fs.search)) else g2
  sortGames g3

/-- STATE.currentFilters of the client revisions: plain strings defaulting to
the empty string and the word all. -/
structure ClientFilters where
  search : String := ""
  genre : String := "all"
  status : String := "all"

/-- Games.applyFilters of the first client revision in main.js: search, genre
and status filters over a copy of STATE.games, then the sort whose comparator
hardcodes the Loading Rush special case.  The stored search term is already
lowercased by the input handler, matching the source predicate. -/
def applyFilters (games : List Game) (fs : ClientFilters) : List Game :=
  let f1 := if truthyS fs.search
    then games.filter (fun g =>
      strIncludes (strToLower g.title) fs.search
        || strIncludes (strToLower g.description) fs.search)
    else games
  let f2 := if !(fs.genre == "all") then f1.filter (fun g => g.genre == fs.genre) else f1
  let f3 := if !(fs.status == "all") then f2.filter (fun g => g.status == fs.status) else f2
  jsSort cmpApply f3

/-- A character admitted by the bracket class of the validation regex:
anything that is neither whitespace nor the at-sign. -/
def emailChar (c : Char) : Bool := !c.isWhitespace && !(c = '@')

/-- The e-mail validation regex shared by every contact handler: caret, one or
more non-space non-at characters, an at-sign, one or more non-space non-at
characters, a literal dot, one or more non-space non-at characters, dollar.
A string matches iff it splits as LOCAL at-sign REST with LOCAL a nonempty
run of admissible characters and REST a nonempty run of admissible characters
containing a dot that is neither its first nor its last character. -/
def emailRegexTest (s : String) : Bool :=
  let cs := s.toList
  let lcl := cs.takeWhile (fun c => !(c = '@'))
  let rest := (cs.dropWhile (fun c => !(c = '@'))).drop 1
  !lcl.isEmpty && lcl.all emailChar
    && decide (lcl.length + 1 + rest.length = cs.length)
    && !rest.isEmpty && rest.all emailChar
    && (rest.drop 1).dropLast.contains '.'

/-- The JSON body written by a contact route, together with the HTTP status. -/
structure ContactResponse where
  status : Int
  success : Bool
  message : Option String := none
  id : Option Int := none
  error : Option String := none
  deriving DecidableEq

/-- middleware.validateContactForm (server.js): the 400 error text when a
check fails, none when the request proceeds to the route handler. -/
def validateContactForm (email message : Option String) : Option String :=
  if !truthyO email || !truthyO message then
    some ("Email and message are required fields.")
  else if !emailRegexTest (strOf email) then
    some ("Invalid email format.")
  else if (strTrim (strOf message)).length < 10 then
    some ("Message must be at least 10 characters long.")
  else if (strOf message).length > 2000 then
    some ("Message cannot exceed 2000 characters.")
  else none

/-- The apiRouter POST /contact pipeline of the later server revision:
validateContactForm, then 503 when the e-mail service is not configured, 200
with success, message and id (Date.now, passed as now) on delivery, and the
errorHandler status (err.status or-bars 500, here 500) when sendMail rejects.
The boolean paired with the response records whether a send was attempted. -/
def contactRouteV2 (email message : Option String) (configured sendOk : Bool)
    (now : Int) : ContactResponse × Bool :=
  match validateContactForm email message with
  | some err => (⟨400, false, none, none, some err⟩, false)
  | none =>
    if !configured then
      (⟨503, false, none, none, some ("Email service is not configured.")⟩, false)
    else if sendOk then
      (⟨200, true, some ("Email sent successfully."), some now, none⟩, true)
    else
      (⟨500, false, none, none, some ("Email send failed")⟩, true)

/-- The part_001 POST /api/contact handler: required-fields and regex checks
only (it has no minimum message length check), then the nodemailer send.
Missing credentials make sendMail reject at send time, so delivery succeeds
iff configured and sendOk both hold; any rejection is caught as a 500. -/
def part001Contact (email message : Option String) (configured sendOk : Bool)
    (now : Int) : ContactResponse × Bool :=
  if !truthyO email || !truthyO message then
    (⟨400, false, none, none, some ("Email and message are required fields.")⟩, false)
  else if !emailRegexTest (strOf email) then
    (⟨400, false, none, none, some ("Invalid email format provided.")⟩, false)
  else if configured && sendOk then
    (⟨200, true, some ("Email has been sent successfully."), some now, none⟩, true)
  else
    (⟨500, false, none, none, some ("Failed to send email via SMTP provider.")⟩, true)

/-- The SQLite revision POST /api/contact handler: the three 400 validations
inline, then the INSERT into contacts (dbOk is the statement outcome, newId
the generated row id); persistence is attempted only after validation. -/
def contactSQL (email message : Option String) (dbOk : Bool) (newId : Int) :
    ContactResponse × Bool :=
  if !truthyO email || !truthyO message then
    (⟨400, false, none, none, some ("Email and message are required")⟩, false)
  else if !emailRegexTest (strOf email) then
    (⟨400, false, none, none, some ("Invalid email format")⟩, false)
  else if (strTrim (strOf message)).length < 10 then
    (⟨400, false, none, none, some ("Message must be at least 10 characters")⟩, false)
  else if dbOk then
    (⟨200, true, some ("Message received successfully"), some newId, none⟩, true)
  else
    (⟨500, false, none, none, some ("Failed to save message")⟩, true)

/-- GET /api/games/:id (part_001 and the main.js server revision): find the
first game whose id equals the parsed id, else a 404 body with an error
field. -/
def getGameById (games : List Game) (id : Int) : Except (Int × String) Game :=
  match games.find? (fun g => g.id == id) with
  | some game => Except.ok game
  | none => Except.error (404, "Game not found")

/-- CONFIG.RETRY_ATTEMPTS in main.js. -/
def RETRY_ATTEMPTS : Nat := 3

/-- CONFIG.RETRY_DELAY in main.js, in milliseconds. -/
def RETRY_DELAY : Nat := 1000

/-- The loop body of API.fetchWithRetry: remaining counts the attempts still
allowed, i is the 0-based attempt index, and the network is an oracle from
attempt index to outcome.  On the last allowed attempt a failure is rethrown
without sleeping; earlier failures sleep RETRY_DELAY times the 1-based attempt
number and continue.  The returned list records the sleeps performed.  (The
source leaves a zero-retries call returning undefined; the model is only ever
used at RETRY_ATTEMPTS.) -/
def fetchWithRetryAux {α : Type} (oracle : Nat → Except String α) :
    Nat → Nat → Except String α × List Nat
  | 0, _ => (Except.error ("no attempts"), [])
  | 1, i =>
    (match oracle i with
     | Except.ok a => (Except.ok a, [])
     | Except.error e => (Except.error e, []))
  | n + 2, i =>
    match oracle i with
    | Except.ok a => (Except.ok a, [])
    | Except.error _ =>
      let r := fetchWithRetryAux oracle (n + 1) (i + 1)
      (r.1, RETRY_DELAY * (i + 1) :: r.2)

/-- API.fetchWithRetry (main.js): run up to retries attempts starting at
attempt 0. -/
def fetchWithRetry {α : Type} (oracle : Nat → Except String α) (retries : Nat) :
    Except String α × List Nat :=
  fetchWithRetryAux oracle retries 0

/-- The GET /api/stats payload. -/
structure Stats where
  totalGames : Nat
  liveGames : Nat
  inDev : Nat
  concepts : Nat
  deriving DecidableEq

/-- API.fetchStats (main.js): fetchWithRetry around GET /api/stats, falling
back to the hardcoded stub totalGames 5, liveGames 3, inDev 1, concepts 1
when every attempt failed. -/
def fetchStats (oracle : Nat → Except String Stats) : Stats :=
  match (fetchWithRetry oracle RETRY_ATTEMPTS).1 with
  | Except.ok d => d
  | Except.error _ => ⟨5, 3, 1, 1⟩

/-- The part_001 GET /api/stats computation: Live and In Dev counted exactly,
Prototype and Concept pooled into concepts. -/
def statsP1 (games : List Game) : Stats :=
  ⟨games.length,
   (games.filter (fun g => g.status == "Live")).length,
   (games.filter (fun g => g.status == "In Dev")).length,
   (games.filter (fun g => g.status == "Prototype" || g.status == "Concept")).length⟩

/-- GamesService.getStats of the later server revision: concepts counts only
the status Concept. -/
def statsV2 (games : List Game) : Stats :=
  ⟨games.length,
   (games.filter (fun g => g.status == "Live")).length,
   (games.filter (fun g => g.status == "In Dev")).length,
   (games.filter (fun g => g.status == "Concept")).length⟩

/-- The SQLite revision GET /api/stats query: COUNT star with CASE WHEN sums
over the games table, the same three buckets as the part_001 computation. -/
def statsSQL (games : List Game) : Stats :=
  ⟨games.length,
   (games.filter (fun g => g.status == "Live")).length,
   (games.filter (fun g => g.status == "In Dev")).length,
   (games.filter (fun g => g.status == "Prototype" || g.status == "Concept")).length⟩

/-- How many of the three part_001 stats buckets a game falls into. -/
def bucketsP1 (g : Game) : Nat :=
  (if g.status == "Live" then 1 else 0)
    + (if g.status == "In Dev" then 1 else 0)
    + (if g.status == "Prototype" || g.status == "Concept" then 1 else 0)

/-- How many of the three GamesService.getStats buckets a game falls into. -/
def bucketsV2 (g : Game) : Nat :=
  (if g.status == "Live" then 1 else 0)
    + (if g.status == "In Dev" then 1 else 0)
    + (if g.status == "Concept" then 1 else 0)

/-- A JS heap of game arrays, addressed by allocation index.  The GET
/api/games routes are modelled over this heap so that the spread copy, the
fresh arrays produced by Array.prototype.filter and the in-place mutation of
Array.prototype.sort act on explicit references. -/
abbrev Heap := List (List Game)

/-- Read the array behind reference r (a dangling reference reads empty). -/
def readArr (h : Heap) (r : Nat) : List Game := (h[r]?).getD []

/-- Allocate a fresh array holding xs, returning the new heap and the fresh
reference. -/
def allocArr (h : Heap) (xs : List Game) : Heap × Nat := (h ++ [xs], h.length)

/-- Overwrite the array behind reference r in place. -/
def writeArr (h : Heap) (r : Nat) (xs : List Game) : Heap := h.set r xs

/-- A conditional filter step: when active, Array.prototype.filter allocates
a fresh array from the predicate and the handler rebinds its variable to it. -/
def filterStep (s : Heap × Nat) (cond : Bool) (p : Game → Bool) : Heap × Nat :=
  if cond then allocArr s.1 ((readArr s.1 s.2).filter p) else s

/-- An in-place Array.prototype.sort of the array behind the reference. -/
def sortStep (s : Heap × Nat) (c : Game → Game → Int) : Heap :=
  writeArr s.1 s.2 (jsSort c (readArr s.1 s.2))

/-- The part_001 GET /api/games route over the heap: spread-copy the stored
array, genre filter, search filter, then sort the copy in place with the
comparator selected by the sort parameter and respond with the copy. -/
def gamesRouteP1 (h : Heap) (store : Nat) (search genre sort : Option String) :
    Heap × List Game :=
  let s1 := allocArr h (readArr h store)
  let s2 := filterStep s1 (truthyO genre && !(strOf genre == "all"))
    (fun g => g.genre == strOf genre)
  let s3 := filterStep s2 (truthyO search) (searchPred (strOf search))
  let c := if strOf sort == "oldest" then cmpOldest
    else if strOf sort == "alpha" then cmpAlpha
    else cmpP1Default
  let h4 := sortStep s3 c
  (h4, readArr h4 s3.2)

/-- GamesService.getAll invoked by the GET /api/games route of the later
server revision, over the heap: spread copy, genre, status and search
filters, then sortGames mutates the final array in place. -/
def gamesRouteV2 (h : Heap) (store : Nat) (search genre status : Option String) :
    Heap × List Game :=
  let s1 := allocArr h (readArr h store)
  let s2 := filterStep s1 (truthyO genre && !(strOf genre == "all"))
    (fun g => g.genre == strOf genre)
  let s3 := filterStep s2 (truthyO status && !(strOf status == "all"))
    (fun g => g.status == strOf status)
  let s4 := filterStep s3 (truthyO search) (searchPred (strOf search))
  let h5 := sortStep s4 cmpGS
  (h5, readArr h5 s4.2)

/-! Helper lemmas about the comparators and the stable sort. -/

/-- The rank cmpGS compares: lowercased trimmed status looked up in the
sortGames table, defaulting to 99. -/
def gsRank (g : Game) : Int := (statusOrderGS (strTrim (strToLower g.status))).getD 99

/-- The tie-break value every priority comparator uses: priority or-bars
999. -/
def jsPrio (g : Game) : Int := jsOr g.priority 999

/-- The rank the client applyFilters comparator uses: table lookup coerced by
the or-bars idiom. -/
def clRank (g : Game) : Int := jsOr (statusOrderClient g.status) 99

lemma cmpGS_eq (a b : Game) :
    cmpGS a b = if gsRank a - gsRank b ≠ 0 then gsRank a - gsRank b
      else jsPrio a - jsPrio b := rfl

lemma cmpGS_le_iff (a b : Game) :
    cmpGS a b ≤ 0 ↔
      (gsRank a < gsRank b ∨ (gsRank a = gsRank b ∧ jsPrio a ≤ jsPrio b)) := by
  rw [cmpGS_eq]
  by_cases h : gsRank a - gsRank b = 0
  · simp only [h, ne_eq, not_true_eq_false, if_false]
    omega
  · simp only [h, ne_eq, not_false_eq_true, if_true]
    omega

lemma statusOrderGS_getD_le_one (s : String) (h : (statusOrderGS s).isSome = true) :
    (statusOrderGS s).getD 99 ≤ 1 := by
  unfold statusOrderGS at *
  split_ifs at * <;> simp_all

lemma statusOrderGS_getD_of_none (s : String) (h : (statusOrderGS s).isSome = false) :
    (statusOrderGS s).getD 99 = 99 := by
  cases hs : statusOrderGS s <;> simp_all

lemma cmpApply_eq_of_ne (a b : Game) (ha : ¬ a.title = "Loading Rush")
    (hb : ¬ b.title = "Loading Rush") :
    cmpApply a b = if clRank a - clRank b ≠ 0 then clRank a - clRank b
      else jsPrio a - jsPrio b := by
  simp only [cmpApply, ha, hb, if_false, clRank, jsPrio]

lemma cmpApply_le_iff (a b : Game) :
    cmpApply a b ≤ 0 ↔
      (a.title = "Loading Rush"
        ∨ (¬ b.title = "Loading Rush"
            ∧ (clRank a < clRank b ∨ (clRank a = clRank b ∧ jsPrio a ≤ jsPrio b)))) := by
  by_cases ha : a.title = "Loading Rush"
  · simp only [cmpApply, ha, if_true]
    norm_num
  · by_cases hb : b.title = "Loading Rush"
    · simp only [cmpApply, ha, hb, if_false, if_true]
      norm_num [ha]
    · rw [cmpApply_eq_of_ne a b ha hb]
      by_cases h : clRank a - clRank b = 0
      · simp only [h, ne_eq, not_true_eq_false, if_false, ha, hb]
        norm_num [hb]
        omega
      · simp only [h, ne_eq, not_false_eq_true, if_true, ha, hb]
        norm_num [hb]
        omega

lemma cmpApply_trans (a b c : Game) (h1 : cmpApply a b ≤ 0) (h2 : cmpApply b c ≤ 0) :
    cmpApply a c ≤ 0 := by
  rw [cmpApply_le_iff] at h1 h2 ⊢
  rcases h1 with h1 | ⟨hb, h1⟩
  · exact Or.inl h1
  · rcases h2 with h2 | ⟨hc, h2⟩
    · exact absurd h2 hb
    · exact Or.inr ⟨hc, by omega⟩

lemma cmpApply_total (a b : Game) : cmpApply a b ≤ 0 ∨ cmpApply b a ≤ 0 := by
  rw [cmpApply_le_iff, cmpApply_le_iff]
  by_cases ha : a.title = "Loading Rush"
  · exact Or.inl (Or.inl ha)
  · by_cases hb : b.title = "Loading Rush"
    · exact Or.inr (Or.inl hb)
    · by_cases h : clRank a < clRank b ∨ (clRank a = clRank b ∧ jsPrio a ≤ jsPrio b)
      · exact Or.inl (Or.inr ⟨hb, h⟩)
      · refine Or.inr (Or.inr ⟨ha, ?_⟩)
        omega

lemma mem_sortGames {g : Game} {l : List Game} : g ∈ sortGames l ↔ g ∈ l :=
  List.mem_insertionSort _

lemma jsSort_cmpApply_pairwise (l : List Game) :
    (jsSort cmpApply l).Pairwise
      (fun a b => b.title = "Loading Rush" → a.title = "Loading Rush") := by
  haveI : IsTrans Game (fun a b => cmpApply a b ≤ 0) := ⟨cmpApply_trans⟩
  haveI : IsTotal Game (fun a b => cmpApply a b ≤ 0) := ⟨cmpApply_total⟩
  have hs := List.sorted_insertionSort (fun a b => cmpApply a b ≤ 0) l
  refine List.Pairwise.imp ?_ hs
  intro a b hab hb
  by_contra ha
  rw [cmpApply_le_iff] at hab
  rcases hab with h | ⟨hb2, _⟩
  · exact ha h
  · exact hb2 hb

/-! Claim theorems. -/

/-- C1: evaluating the default GET /api/games sort of each revision on its own
hardcoded list.  The part_001 route and the main.js server revision coerce the
Live rank 0 to 99 through the or-bars lookup, so their Live game sorts last
(ids 2, 3, 4, 1 and 5, 4, 2, 3, 1 respectively), contradicting both the claim
and the comments in those sources; only the GamesService revision returns Live
first ordered by ascending priority (ids 1, 2, 4, 5, 3). -/
theorem games_default_sort_eval :
    (gamesRouteP1 [P1_GAMES] 0 none none none).2.map (fun g => g.id) = [2, 3, 4, 1]
      ∧ (gamesRouteP1 [P1_GAMES] 0 none none none).2.map (fun g => g.status)
          = ["In Dev", "Prototype", "Concept", "Live"]
      ∧ (jsSort cmpMainDefault MAIN3_GAMES).map (fun g => g.id) = [5, 4, 2, 3, 1]
      ∧ (jsSort cmpMainDefault MAIN3_GAMES).map (fun g => g.status)
          = ["In Dev", "In Dev", "In Dev", "Concept", "Live"]
      ∧ (gamesRouteV2 [V2_GAMES] 0 none none none).2.map (fun g => g.id) = [1, 2, 4, 5, 3] := by
  decide

/-- C2 (amended): in the sortGames implementations (server GamesService and
client Games.sortGames), for every input list, a game whose status is missing
from the rank table is ordered after every game whose status the table
recognizes. -/
theorem sortGames_unknown_status_last (gs : List Game) :
    (sortGames gs).Pairwise
      (fun a b => (statusOrderGS (strTrim (strToLower b.status))).isSome = true →
        (statusOrderGS (strTrim (strToLower a.status))).isSome = true) := by
  haveI : IsTotal Game (fun a b => cmpGS a b ≤ 0) := by
    refine ⟨fun a b => ?_⟩
    rw [cmpGS_le_iff, cmpGS_le_iff]
    omega
  haveI : IsTrans Game (fun a b => cmpGS a b ≤ 0) := by
    refine ⟨fun a b c h1 h2 => ?_⟩
    rw [cmpGS_le_iff] at h1 h2 ⊢
    omega
  have hs := List.sorted_insertionSort (fun a b => cmpGS a b ≤ 0) gs
  refine List.Pairwise.imp ?_ hs
  intro a b hab hb
  by_contra ha
  rw [cmpGS_le_iff] at hab
  have h1 : gsRank a = 99 :=
    statusOrderGS_getD_of_none _ (by simpa using ha)
  have h2 : gsRank b ≤ 1 := statusOrderGS_getD_le_one _ hb
  unfold gsRank at h1 h2
  unfold gsRank at hab
  omega

/-- A game carrying a status no rank table recognizes. -/
def gUnknown : Game :=
  { id := 7, title := "Mystery", description := "", genre := "arcade",
    tech := "canvas", version := "0.1.0", status := "Experimental",
    priority := some 1 }

/-- A game carrying the recognized status Live. -/
def gLiveX : Game :=
  { id := 8, title := "Alpha", description := "", genre := "arcade",
    tech := "canvas", version := "1.0.0", status := "Live",
    priority := some 2 }

/-- C2, counterexample: in the client applyFilters sort (one of the cited
default sorts), the game with the unrecognized status Experimental is ordered
before the game with the recognized status Live, because the or-bars lookup
coerces the Live rank 0 to 99 and the priority tie-break then decides. -/
theorem applyFilters_unknown_status_not_last :
    applyFilters [gUnknown, gLiveX] ⟨"", "all", "all"⟩ = [gUnknown, gLiveX]
      ∧ (statusOrderClient gUnknown.status).isSome = false
      ∧ (statusOrderClient gLiveX.status).isSome = true := by
  decide

/-- C3: in the client applyFilters pipeline, after any combination of search,
genre and status filters, every game not titled Loading Rush is ordered after
every game titled Loading Rush, whatever the statuses and priorities
involved. -/
theorem applyFilters_loading_rush_first (games : List Game) (fs : ClientFilters) :
    (applyFilters games fs).Pairwise
      (fun a b => b.title = "Loading Rush" → a.title = "Loading Rush") := by
  unfold applyFilters
  exact jsSort_cmpApply_pairwise _

/-- Membership in a conditional JS filter step. -/
lemma mem_ite_filter {l : List Game} {c : Bool} {p : Game → Bool} {g : Game} :
    (g ∈ if c = true then l.filter p else l) ↔ (g ∈ l ∧ (c = true → p g = true)) := by
  cases c
  · simp
  · simp [List.mem_filter]

/-- C4 (amended): for every nonempty genre other than all, GamesService.getAll
returns exactly the stored games of that genre that also pass the active
status and search filters — soundness and completeness of the genre filter. -/
theorem getAll_genre_filter (games : List Game) (search status : Option String)
    (gname : String) (g : Game) (h1 : gname ≠ "") (h2 : gname ≠ "all") :
    g ∈ getAll games ⟨search, some gname, status⟩ ↔
      (g ∈ games ∧ g.genre = gname
        ∧ ((truthyO status && !(strOf status == "all")) = true → g.status = strOf status)
        ∧ (truthyO search = true → searchPred (strOf search) g = true)) := by
  have hg : (truthyO (some gname) && !(strOf (some gname) == "all")) = true := by
    simp [truthyO, truthyS, strOf, h1, h2]
  simp only [getAll, mem_sortGames]
  rw [mem_ite_filter, mem_ite_filter, mem_ite_filter]
  simp only [hg, true_implies, beq_iff_eq, strOf, Option.getD_some]
  tauto

/-- C4, witness: the puzzle filter on the later server list returns exactly
the stored puzzle games. -/
theorem getAll_genre_filter_witness :
    (V2_GAMES.get ⟨1, by decide⟩) ∈ getAll V2_GAMES ⟨none, some ("puzzle"), none⟩ ↔
      ((V2_GAMES.get ⟨1, by decide⟩) ∈ V2_GAMES ∧ (V2_GAMES.get ⟨1, by decide⟩).genre = "puzzle"
        ∧ ((truthyO none && !(strOf none == "all")) = true
            → (V2_GAMES.get ⟨1, by decide⟩).status = strOf none)
        ∧ (truthyO none = true → searchPred (strOf none) (V2_GAMES.get ⟨1, by decide⟩) = true)) :=
  getAll_genre_filter V2_GAMES none none "puzzle" (V2_GAMES.get ⟨1, by decide⟩)
    (by decide) (by decide)

/-- C4, counterexample: the claim as stated fails at the genre equal to the
empty string (the query default, distinct from all): the genre condition is
falsy, the filter is skipped, and games whose genre is not the empty string
are returned. -/
theorem getAll_empty_genre_not_filtered :
    ¬ (∀ g ∈ getAll V2_GAMES ⟨none, some (""), none⟩, g.genre = "") := by
  decide

/-- Failing any of the four 400 checks leaves validateContactForm with an
error in hand. -/
lemma validateContactForm_isSome (e m : Option String)
    (h : truthyO e = false ∨ truthyO m = false ∨ emailRegexTest (strOf e) = false
      ∨ (strTrim (strOf m)).length < 10) :
    (validateContactForm e m).isSome = true := by
  unfold validateContactForm
  split_ifs with h1 h2 h3 h4 <;> simp_all

/-- C5 (amended): in the server.js revisions, POST /api/contact answers 400
before any delivery or persistence whenever email or message is missing, the
email fails the regex, or the trimmed message is under 10 characters; the
static revisions lack the length check (see the counterexample). -/
theorem contact_validation_rejects (e m : Option String) (cfg ok dbOk : Bool)
    (now newId : Int)
    (h : truthyO e = false ∨ truthyO m = false ∨ emailRegexTest (strOf e) = false
      ∨ (strTrim (strOf m)).length < 10) :
    (contactRouteV2 e m cfg ok now).1.status = 400
      ∧ (contactRouteV2 e m cfg ok now).2 = false
      ∧ (contactSQL e m dbOk newId).1.status = 400
      ∧ (contactSQL e m dbOk newId).2 = false := by
  have hv := validateContactForm_isSome e m h
  have hsql : (contactSQL e m dbOk newId).1.status = 400
      ∧ (contactSQL e m dbOk newId).2 = false := by
    unfold contactSQL
    split_ifs with h1 h2 h3 h4 <;> simp_all
  cases hve : validateContactForm e m with
  | none => rw [hve] at hv; simp at hv
  | some err =>
    refine ⟨?_, ?_, hsql.1, hsql.2⟩ <;> simp [contactRouteV2, hve]

/-- C5, witness: a valid email with the message short is rejected with 400 by
both server.js handlers before any send or insert. -/
theorem contact_validation_rejects_witness :
    (contactRouteV2 (some ("a@b.cz")) (some ("short")) true true 7).1.status = 400
      ∧ (contactRouteV2 (some ("a@b.cz")) (some ("short")) true true 7).2 = false
      ∧ (contactSQL (some ("a@b.cz")) (some ("short")) true 7).1.status = 400
      ∧ (contactSQL (some ("a@b.cz")) (some ("short")) true 7).2 = false :=
  contact_validation_rejects (some ("a@b.cz")) (some ("short")) true true true 7 7
    (Or.inr (Or.inr (Or.inr (by decide))))

/-- C5, counterexample: the part_001 handler has no minimum-length check, so
the five-character message short with a valid email is not answered with 400 —
it reaches the send and, with a working transport, returns 200. -/
theorem part001_short_message_not_rejected :
    part001Contact (some ("a@b.c")) (some ("short")) true true 7
        = (⟨200, true, some ("Email has been sent successfully."), some 7, none⟩, true)
      ∧ (strTrim (strOf (some ("short")))).length < 10 := by
  decide

/-- C6 (amended): for requests passing validation, the later server revision
returns 200 with success, message and id on delivery, 503 before any send when
the service is unconfigured, and the errorHandler 500 with a failure body when
sendMail rejects; the part_001 revision returns the same 200 body on delivery
but folds the unconfigured case into the transport failure, answering 500
(never a success body). -/
theorem contact_delivery_statuses (e m : Option String) (now : Int)
    (hv : validateContactForm e m = none)
    (ht : truthyO e = true) (hm : truthyO m = true)
    (hr : emailRegexTest (strOf e) = true) :
    (contactRouteV2 e m true true now).1
        = ⟨200, true, some ("Email sent successfully."), some now, none⟩
      ∧ (∀ ok, (contactRouteV2 e m false ok now).1.status = 503
          ∧ (contactRouteV2 e m false ok now).2 = false)
      ∧ ((contactRouteV2 e m true false now).1.status = 500
          ∧ (contactRouteV2 e m true false now).1.success = false)
      ∧ (part001Contact e m true true now).1
          = ⟨200, true, some ("Email has been sent successfully."), some now, none⟩
      ∧ (∀ cfg ok, (cfg && ok) = false →
          (part001Contact e m cfg ok now).1.status = 500
            ∧ (part001Contact e m cfg ok now).1.success = false) := by
  refine ⟨?_, ?_, ?_, ?_, ?_⟩
  · simp [contactRouteV2, hv]
  · intro ok
    constructor <;> simp [contactRouteV2, hv]
  · constructor <;> simp [contactRouteV2, hv]
  · simp [part001Contact, ht, hm, hr]
  · intro cfg ok hco
    constructor <;> simp [part001Contact, ht, hm, hr, hco]

/-- C6, witness: the delivery statuses at a concrete valid request. -/
theorem contact_delivery_statuses_witness :
    (contactRouteV2 (some ("user@example.com")) (some ("hello from the tests")) true true 42).1
        = ⟨200, true, some ("Email sent successfully."), some 42, none⟩
      ∧ (∀ ok,
          (contactRouteV2 (some ("user@example.com")) (some ("hello from the tests")) false ok 42).1.status = 503
          ∧ (contactRouteV2 (some ("user@example.com")) (some ("hello from the tests")) false ok 42).2 = false)
      ∧ ((contactRouteV2 (some ("user@example.com")) (some ("hello from the tests")) true false 42).1.status = 500
          ∧ (contactRouteV2 (some ("user@example.com")) (some ("hello from the tests")) true false 42).1.success = false)
      ∧ (part001Contact (some ("user@example.com")) (some ("hello from the tests")) true true 42).1
          = ⟨200, true, some ("Email has been sent successfully."), some 42, none⟩
      ∧ (∀ cfg ok, (cfg && ok) = false →
          (part001Contact (some ("user@example.com")) (some ("hello from the tests")) cfg ok 42).1.status = 500
            ∧ (part001Contact (some ("user@example.com")) (some ("hello from the tests")) cfg ok 42).1.success = false) :=
  contact_delivery_statuses (some ("user@example.com")) (some ("hello from the tests")) 42
    (by decide) (by decide) (by decide) (by decide)

/-- C6, counterexample: with missing credentials (an unconfigured service) the
part_001 handler answers 500, not the 503 the claim states. -/
theorem part001_unconfigured_returns_500 :
    (part001Contact (some ("user@example.com")) (some ("hello from the tests")) false true 0).1.status = 500
      ∧ ¬ (part001Contact (some ("user@example.com")) (some ("hello from the tests")) false true 0).1.status = 503 := by
  decide

/-- C7: GET /api/games/:id answers with a stored game bearing the requested id
when one exists, and with a 404 error body when none does. -/
theorem games_by_id_route (games : List Game) (id : Int) :
    ((∃ g ∈ games, g.id = id) →
      ∃ g, getGameById games id = Except.ok g ∧ g ∈ games ∧ g.id = id)
    ∧ ((∀ g ∈ games, g.id ≠ id) →
      getGameById games id = Except.error (404, "Game not found")) := by
  constructor
  · rintro ⟨g0, hg0, hid⟩
    cases hf : games.find? (fun g => g.id == id) with
    | none =>
      rw [List.find?_eq_none] at hf
      exact absurd (by simpa using hid) (by simpa using hf g0 hg0)
    | some g =>
      refine ⟨g, ?_, List.mem_of_find?_eq_some hf, by simpa using List.find?_some hf⟩
      simp [getGameById, hf]
  · intro hall
    have hf : games.find? (fun g => g.id == id) = none := by
      rw [List.find?_eq_none]
      intro x hx
      simpa using hall x hx
    simp [getGameById, hf]

/-- C7, witness: id 2 is found in the part_001 list and id 99 yields the 404
body. -/
theorem games_by_id_route_witness :
    (∃ g, getGameById P1_GAMES 2 = Except.ok g ∧ g ∈ P1_GAMES ∧ g.id = 2)
      ∧ getGameById P1_GAMES 99 = Except.error (404, "Game not found") :=
  ⟨(games_by_id_route P1_GAMES 2).1 (by decide),
   (games_by_id_route P1_GAMES 99).2 (by decide)⟩

/-- C8: when all RETRY_ATTEMPTS attempts at GET /api/stats fail, fetchStats
returns the hardcoded stub, and the sleeps performed between attempts are
RETRY_DELAY times one and RETRY_DELAY times two — the linear backoff. -/
theorem fetch_stats_retry_fallback (oracle : Nat → Except String Stats)
    (h : ∀ i, i < RETRY_ATTEMPTS → ∃ e, oracle i = Except.error e) :
    fetchStats oracle = ⟨5, 3, 1, 1⟩
      ∧ (fetchWithRetry oracle RETRY_ATTEMPTS).2 = [RETRY_DELAY * 1, RETRY_DELAY * 2] := by
  obtain ⟨e0, h0⟩ := h 0 (by decide)
  obtain ⟨e1, h1⟩ := h 1 (by decide)
  obtain ⟨e2, h2⟩ := h 2 (by decide)
  have key : fetchWithRetry oracle RETRY_ATTEMPTS
      = (Except.error e2, [RETRY_DELAY * 1, RETRY_DELAY * 2]) := by
    simp [fetchWithRetry, RETRY_ATTEMPTS, fetchWithRetryAux, h0, h1, h2]
  exact ⟨by simp [fetchStats, key], by rw [key]⟩

/-- C8, witness: a network that always fails produces the stub and the two
backoff sleeps. -/
theorem fetch_stats_retry_fallback_witness :
    fetchStats (fun _ => Except.error ("offline")) = ⟨5, 3, 1, 1⟩
      ∧ (fetchWithRetry (fun _ => (Except.error ("offline") : Except String Stats))
          RETRY_ATTEMPTS).2 = [RETRY_DELAY * 1, RETRY_DELAY * 2] :=
  fetch_stats_retry_fallback (fun _ => Except.error ("offline"))
    (fun _ _ => ⟨"offline", rfl⟩)

/-- Allocation leaves every already-valid reference readable unchanged. -/
lemma readArr_allocArr (h : Heap) (xs : List Game) (i : Nat) (hi : i < h.length) :
    readArr (allocArr h xs).1 i = readArr h i := by
  simp [readArr, allocArr, List.getElem?_append_left hi]

/-- Writing behind a different reference leaves a read unchanged. -/
lemma readArr_writeArr_ne (h : Heap) (r i : Nat) (xs : List Game) (hne : ¬ i = r) :
    readArr (writeArr h r xs) i = readArr h i := by
  simp [readArr, writeArr, List.getElem?_set_ne (fun hc => hne hc.symm)]

/-- Invariant carried along a games-route pipeline: reads of the store are
unchanged, the heap has only grown, and the working reference sits at or above
the original heap length (hence never aliases the store). -/
def StoreInv (h0 : Heap) (store : Nat) (s : Heap × Nat) : Prop :=
  readArr s.1 store = readArr h0 store ∧ h0.length ≤ s.1.length ∧ h0.length ≤ s.2

/-- The spread copy at the head of every route establishes the invariant. -/
lemma storeInv_copy (h0 : Heap) (store : Nat) (xs : List Game)
    (hst : store < h0.length) : StoreInv h0 store (allocArr h0 xs) := by
  refine ⟨readArr_allocArr h0 xs store hst, ?_, ?_⟩ <;> simp [allocArr]

/-- A conditional filter step preserves the invariant. -/
lemma storeInv_filterStep (h0 : Heap) (store : Nat) (hst : store < h0.length)
    (s : Heap × Nat) (hs : StoreInv h0 store s) (cond : Bool) (p : Game → Bool) :
    StoreInv h0 store (filterStep s cond p) := by
  obtain ⟨hr, hlen, href⟩ := hs
  unfold filterStep
  cases cond with
  | false => exact ⟨hr, hlen, href⟩
  | true =>
    simp only [if_true]
    refine ⟨?_, ?_, ?_⟩
    · rw [readArr_allocArr s.1 _ store (lt_of_lt_of_le hst hlen), hr]
    · simp only [allocArr, List.length_append, List.length_cons, List.length_nil]
      omega
    · simpa [allocArr] using hlen

/-- The in-place sort mutates only the working array, so the store read is the
original one. -/
lemma readArr_sortStep (h0 : Heap) (store : Nat) (hst : store < h0.length)
    (s : Heap × Nat) (hs : StoreInv h0 store s) (c : Game → Game → Int) :
    readArr (sortStep s c) store = readArr h0 store := by
  obtain ⟨hr, hlen, href⟩ := hs
  unfold sortStep
  rw [readArr_writeArr_ne s.1 s.2 store _ (by omega), hr]

/-- C9: for every heap, stored array and combination of search, genre, status
and sort parameters, handling GET /api/games leaves the stored array readable
unchanged — both routes copy, filter fresh arrays and sort only the copy. -/
theorem games_routes_preserve_store (h : Heap) (store : Nat)
    (search genre status sort : Option String) (hst : store < h.length) :
    readArr (gamesRouteP1 h store search genre sort).1 store = readArr h store
      ∧ readArr (gamesRouteV2 h store search genre status).1 store = readArr h store := by
  constructor
  · unfold gamesRouteP1
    exact readArr_sortStep h store hst _
      (storeInv_filterStep h store hst _
        (storeInv_filterStep h store hst _ (storeInv_copy h store _ hst) _ _) _ _) _
  · unfold gamesRouteV2
    exact readArr_sortStep h store hst _
      (storeInv_filterStep h store hst _
        (storeInv_filterStep h store hst _
          (storeInv_filterStep h store hst _ (storeInv_copy h store _ hst) _ _) _ _) _ _) _

/-- C9, witness: a concrete request with search, genre, status and sort set
leaves the stored part_001 array unchanged on both routes. -/
theorem games_routes_preserve_store_witness :
    readArr (gamesRouteP1 [P1_GAMES] 0 (some ("lava")) (some ("puzzle")) (some ("alpha"))).1 0
        = readArr [P1_GAMES] 0
      ∧ readArr (gamesRouteV2 [P1_GAMES] 0 (some ("lava")) (some ("puzzle")) (some ("Live"))).1 0
          = readArr [P1_GAMES] 0 :=
  games_routes_preserve_store [P1_GAMES] 0 (some ("lava")) (some ("puzzle"))
    (some ("Live")) (some ("alpha")) (by decide)

/-- C10: on the hardcoded list of each revision, totalGames is the sum of the
three buckets, each stats object takes its expected value, and every game of
each list is counted in exactly one bucket. -/
theorem stats_buckets_partition :
    statsP1 P1_GAMES = ⟨4, 1, 1, 2⟩
      ∧ statsV2 V2_GAMES = ⟨5, 4, 1, 0⟩
      ∧ statsSQL SEED_GAMES = ⟨4, 1, 1, 2⟩
      ∧ (statsP1 P1_GAMES).totalGames
          = (statsP1 P1_GAMES).liveGames + (statsP1 P1_GAMES).inDev
            + (statsP1 P1_GAMES).concepts
      ∧ (statsV2 V2_GAMES).totalGames
          = (statsV2 V2_GAMES).liveGames + (statsV2 V2_GAMES).inDev
            + (statsV2 V2_GAMES).concepts
      ∧ (statsSQL SEED_GAMES).totalGames
          = (statsSQL SEED_GAMES).liveGames + (statsSQL SEED_GAMES).inDev
            + (statsSQL SEED_GAMES).concepts
      ∧ P1_GAMES.all (fun g => bucketsP1 g == 1) = true
      ∧ V2_GAMES.all (fun g => bucketsV2 g == 1) = true
      ∧ SEED_GAMES.all (fun g => bucketsP1 g == 1) = true := by
  decide

end Gaminute
